import Mathlib

/-!
Shallow embedding of the `fastmcp-digitaltwin` repository (two near-identical
entry scripts, `src/cv_digital_twin.py` and `src/main.py`) in Lean 4.

The embedding models:

* Python strings as Lean `String`, with the operations the code uses
  (`len`, slicing `[:n]`, `str.endswith`, `os.path.basename`, `sorted`,
  `"\n".join`) re-expressed as structurally recursive functions over the
  underlying `List Char` so that everything evaluates by `decide`/`rfl`.
  Python `len` and slicing count code points, which matches `List Char`
  length and `take` on `String.data`.
* The filesystem as an explicit structure `FS`: a finite association list of
  existing PDF files keyed by path string, plus the contents of the `docs/`
  directory (`none` when the directory is missing).  `pathlib.Path.glob`
  enumerates directory entries in unspecified (OS-dependent) order; the model
  exposes that order as the order of `docsListing`.
* Python exceptions as the explicit error type `PyErr`, distinguishing the
  exception classes the code catches separately (`FileNotFoundError`,
  `ImportError`, `ValueError`, bare `Exception`).
* The module-level mutable globals (`cv_content`, `cv_metadata`,
  `openai_client`) as explicit state (`Cache`, `ServerState`) threaded through
  the operations.  In the Python code every `raise` in `load_cv`,
  `load_all_pdfs_from_docs` and `get_openai_client` happens before the first
  assignment to a global, so a failing operation performs no mutation; the
  embedding therefore returns `Except` values and lets the caller keep the old
  state on error, which is observationally faithful.
* The OpenAI completion endpoint as an opaque function
  `completions : CompletionRequest → Except String CompletionResponse` carried
  in the environment; the chat entry points additionally return the list of
  requests actually issued, so "no network call is attempted" is statable.
-/

/-- Python exception values, tagged by the classes the code distinguishes in
its `except` clauses. -/
inductive PyErr where
  | fileNotFound (s : String)
  | importError (s : String)
  | valueError (s : String)
  | exception (s : String)
deriving Repr, DecidableEq

/-- `str(e)`: the message carried by an exception. -/
def PyErr.msg : PyErr → String
  | .fileNotFound s => s
  | .importError s => s
  | .valueError s => s
  | .exception s => s

/-- Code-point length of a string (Python `len` on `str`). -/
def strLen (s : String) : Nat := s.data.length

/-- Python slicing `s[:n]` (first `n` code points). -/
def strTake (s : String) (n : Nat) : String := String.mk (s.data.take n)

/-- Python `s.endswith(suf)`. -/
def strEndsWith (s suf : String) : Bool := suf.data.isSuffixOf s.data

/-- Python truthiness of a string: `bool(s)` is `False` exactly for `""`. -/
def strTruthy (s : String) : Bool := !s.data.isEmpty

/-- `os.path.basename`: the final path component (text after the last `/`). -/
def basename (p : String) : String :=
  String.mk ((p.data.reverse.takeWhile (fun c => c != '/')).reverse)

/-- Python string `<` (lexicographic by code point), as used by `sorted`. -/
def charListLt : List Char → List Char → Bool
  | [], [] => false
  | [], _ :: _ => true
  | _ :: _, [] => false
  | a :: as, b :: bs =>
    if a.toNat < b.toNat then true
    else if b.toNat < a.toNat then false
    else charListLt as bs

/-- `a < b` on strings, Python semantics. -/
def strLt (a b : String) : Bool := charListLt a.data b.data

/-- Insert into an ascending list, keeping it ascending (helper for
`sortStrings`). -/
def insertSorted (s : String) : List String → List String
  | [] => [s]
  | t :: ts => if strLt t s then t :: insertSorted s ts else s :: t :: ts

/-- Python `sorted` on a list of strings (insertion sort by `strLt`). -/
def sortStrings : List String → List String
  | [] => []
  | s :: ss => insertSorted s (sortStrings ss)

/-- One PDF file on disk, described by what each extraction backend would do
with it: `plumber` models `pdfplumber.open` + per-page `extract_text()` (which
returns `None`, modelled `none`, for a page with no text); `pypdf2` models
`PyPDF2.PdfReader` + per-page `extract_text()`.  `Except.error` is a thrown
exception for that backend; the second backend has no per-page guard, so a
per-page failure there is a whole-backend exception. -/
structure PdfFile where
  plumber : Except String (List (Option String))
  pypdf2 : Except String (List String)

/-- The filesystem and process environment visible to the scripts. -/
structure FS where
  /-- Existing PDF files, keyed by path string. -/
  files : List (String × PdfFile)
  /-- Entries of the `docs/` directory next to the script, in the order the
  OS enumerates them (`pathlib.Path.glob` does not sort); `none` when the
  directory does not exist. -/
  docsListing : Option (List String)

/-- `os.path.exists` combined with opening the file. -/
def FS.lookup (fs : FS) (p : String) : Option PdfFile :=
  (fs.files.find? (fun e => e.fst == p)).map Prod.snd

/-- One request issued to the completion endpoint: the model identifier, the
system turn and the user turn. -/
structure CompletionRequest where
  model : String
  system : String
  user : String
deriving Repr, DecidableEq

/-- What the completion endpoint returns: `choices[0].message.content` and
`response.model`. -/
structure CompletionResponse where
  content : String
  model : String
deriving Repr, DecidableEq

/-- Process environment and the external OpenAI service. -/
structure Env where
  hasOpenAI : Bool
  hasPdfplumber : Bool
  hasPyPDF2 : Bool
  /-- `os.getenv "OPENAI_API_KEY"`. -/
  apiKey : Option String
  /-- `os.getenv "OPENAI_MODEL"`. -/
  openaiModelEnv : Option String
  /-- The opaque completion endpoint (`client.chat.completions.create`):
  either a response or a raised exception message. -/
  completions : CompletionRequest → Except String CompletionResponse

/-- `openai_model = os.getenv("OPENAI_MODEL", "gpt-5-mini-2025-08-07")`. -/
def openai_model (env : Env) : String :=
  env.openaiModelEnv.getD "gpt-5-mini-2025-08-07"

/-- Python truthiness of `os.getenv("OPENAI_API_KEY")`: set and non-empty. -/
def Env.apiKeyTruthy (env : Env) : Bool :=
  match env.apiKey with
  | none => false
  | some s => strTruthy s

/-- The constructed OpenAI client, remembering the key it was built with. -/
structure Client where
  api_key : String
deriving Repr, DecidableEq

/-- The module-level document cache metadata `cv_metadata`: initially the
empty dict, then either the dict written by `load_cv` (single document) or the
one written by `load_all_pdfs_from_docs` (multi document). -/
inductive CvMetadata where
  | empty
  | single (file_path file_name : String) (content_length : Nat) (loaded : Bool)
  | multi (file_paths file_names : List String) (content_length num_files : Nat)
      (loaded : Bool)
deriving Repr, DecidableEq

/-- The module-level document cache: `cv_content` (`None` = unloaded) and
`cv_metadata`. -/
structure Cache where
  cv_content : Option String
  cv_metadata : CvMetadata
deriving Repr, DecidableEq

/-- Cache state at module import: `cv_content = None`, `cv_metadata = {}`. -/
def initialCache : Cache := ⟨none, CvMetadata.empty⟩

/-- `"\n\n".join(pages_text)`. -/
def joinPages (pages : List String) : String := String.intercalate "\n\n" pages

/-- The `ImportError` message raised when no extraction backend produced a
result (identical in both scripts, lines 105-110). -/
def noPdfLibMsg : String :=
  "No PDF library available. Please install pdfplumber or PyPDF2:\n  pip install pdfplumber\n  or\n  pip install PyPDF2"

/-- `extract_text_from_pdf` (identical in both scripts, lines 78-110).
If pdfplumber is importable, it is tried first: on success the per-page texts
(with `None` coerced to `""` by `or ""`) are joined with `"\n\n"` and returned
immediately — even when every page is empty; a thrown exception is printed and
falls through.  Then PyPDF2 likewise.  If neither returned, an `ImportError`
is raised naming both packages. -/
def extract_text_from_pdf (env : Env) (f : PdfFile) : Except PyErr String :=
  match (if env.hasPdfplumber then
           match f.plumber with
           | Except.ok pages => some (joinPages (pages.map (fun p => p.getD "")))
           | Except.error _ => none
         else none) with
  | some t => Except.ok t
  | none =>
    match (if env.hasPyPDF2 then
             match f.pypdf2 with
             | Except.ok pages => some (joinPages pages)
             | Except.error _ => none
           else none) with
    | some t => Except.ok t
    | none => Except.error (PyErr.importError noPdfLibMsg)

/-- The conventional-name priority list of `find_cv_in_docs`
(`src/cv_digital_twin.py` line 123; the trailing duplicate is in the source). -/
def cv_names : List String := ["CV.pdf", "cv.pdf", "resume.pdf", "Resume.pdf", "CV.pdf"]

/-- `find_cv_in_docs` (`src/cv_digital_twin.py` lines 113-135): first existing
conventional name, else the first entry of `docs_dir.glob("*.pdf")` — glob
enumeration order, not sorted — else `None`. -/
def find_cv_in_docs (fs : FS) : Option String :=
  match fs.docsListing with
  | none => none
  | some listing =>
    match cv_names.find? (fun n => listing.contains n) with
    | some n => some ("docs/" ++ n)
    | none =>
      match listing.filter (fun n => strEndsWith n ".pdf") with
      | [] => none
      | n :: _ => some ("docs/" ++ n)

/-- `find_all_pdfs_in_docs` (`src/main.py` lines 113-124):
`sorted(docs_dir.glob("*.pdf"))` as path strings (all matches share the
`docs/` prefix, so sorting the names and prefixing agrees with sorting the
full paths). -/
def find_all_pdfs_in_docs (fs : FS) : List String :=
  match fs.docsListing with
  | none => []
  | some listing =>
    (sortStrings (listing.filter (fun n => strEndsWith n ".pdf"))).map
      (fun n => "docs/" ++ n)

/-- `load_cv` (identical in both scripts): raises `FileNotFoundError` when the
path does not exist, otherwise extracts and overwrites `cv_content` and
`cv_metadata`.  Both `raise` sites run before any global assignment, so the
error branch mutates nothing. -/
def load_cv (env : Env) (fs : FS) (pdf_path : String) : Except PyErr Cache :=
  match fs.lookup pdf_path with
  | none => Except.error (PyErr.fileNotFound ("CV file not found: " ++ pdf_path))
  | some f =>
    match extract_text_from_pdf env f with
    | Except.error e => Except.error e
    | Except.ok text =>
      Except.ok
        { cv_content := some text,
          cv_metadata :=
            CvMetadata.single pdf_path (basename pdf_path) (strLen text) true }

/-- One iteration of the loop in `load_all_pdfs_from_docs`: extract one
document, `none` when the attempt raised (a vanished file makes both backend
opens raise, ending in the same caught `ImportError`). -/
def tryLoadOne (env : Env) (fs : FS) (p : String) : Option String :=
  match fs.lookup p with
  | none => none
  | some f =>
    match extract_text_from_pdf env f with
    | Except.ok t => some t
    | Except.error _ => none

/-- The per-document banner prepended inside `load_all_pdfs_from_docs`
(line 163): `f"\n\n--- Content from {basename} ---\n\n{content}"`. -/
def contentHeader (p t : String) : String :=
  "\n\n--- Content from " ++ basename p ++ " ---\n\n" ++ t

/-- `load_all_pdfs_from_docs` (`src/main.py` lines 145-182): raises
`FileNotFoundError` when `find_all_pdfs_in_docs` is empty; extracts each file
in order, catching and skipping per-document failures; raises `Exception` when
nothing loaded; otherwise joins the banner-prefixed parts with `"\n"` and
overwrites `cv_content`/`cv_metadata`.  All raises precede the global
assignments. -/
def load_all_pdfs_from_docs (env : Env) (fs : FS) : Except PyErr Cache :=
  let pdf_files := find_all_pdfs_in_docs fs
  if pdf_files.isEmpty then
    Except.error (PyErr.fileNotFound "No PDF files found in docs/ directory")
  else
    let loaded := pdf_files.filterMap
      (fun p => (tryLoadOne env fs p).map (fun t => (p, t)))
    if loaded.isEmpty then
      Except.error (PyErr.exception "Failed to load any PDF files from docs directory")
    else
      let content := String.intercalate "\n"
        (loaded.map (fun pt => contentHeader pt.fst pt.snd))
      Except.ok
        { cv_content := some content,
          cv_metadata :=
            CvMetadata.multi (loaded.map Prod.fst)
              (loaded.map (fun pt => basename pt.fst))
              (strLen content) loaded.length true }

/-- The `ImportError` message of `get_openai_client` when the `openai` package
did not import. -/
def openaiNotInstalledMsg : String :=
  "OpenAI library not installed. Please install it:\n  pip install openai"

/-- An apostrophe, spelled via its code point. -/
def apos : String := String.singleton (Char.ofNat 39)

/-- The `ValueError` message of `get_openai_client` when `OPENAI_API_KEY` is
unset (or empty). -/
def apiKeyMissingMsg : String :=
  "OPENAI_API_KEY environment variable not set. Please set it with: export OPENAI_API_KEY="
    ++ apos ++ "your-api-key" ++ apos

/-- `get_openai_client` (identical in both scripts, lines 56-75), together
with the post-value of the module-level `openai_client` global (second
component): raises `ImportError` without OpenAI; returns a cached client
without touching the environment; otherwise reads `OPENAI_API_KEY`, raising
`ValueError` before any assignment when it is missing, and caches the newly
built client on success. -/
def get_openai_client (env : Env) (client : Option Client) :
    Except PyErr Client × Option Client :=
  if !env.hasOpenAI then
    (Except.error (PyErr.importError openaiNotInstalledMsg), client)
  else
    match client with
    | some c => (Except.ok c, some c)
    | none =>
      if env.apiKeyTruthy then
        let c : Client := ⟨(env.apiKey).getD ""⟩
        (Except.ok c, some c)
      else
        (Except.error (PyErr.valueError apiKeyMissingMsg), client)

/-- The JSON payload `_chat_with_me_impl` serialises with `json.dumps`:
either the success object `{message, response, source, model}` or the error
object `{status: "error", message}`. -/
inductive ChatResult where
  | ok (message response source model : String)
  | error (message : String)
deriving Repr, DecidableEq

/-- The mutable module state read and written by `_chat_with_me_impl`:
the document cache and the lazily constructed `openai_client`. -/
structure ServerState where
  cache : Cache
  client : Option Client
deriving Repr, DecidableEq

/-- The system prompt of `src/cv_digital_twin.py` (lines 204-207). -/
def system_prompt_cv : String :=
  "You are a digital twin of a person based on their CV/resume. \nAnswer questions naturally and conversationally as if you are this person. \nOnly use information that is explicitly stated in the CV. \nIf information is not available in the CV, feel free to make up a response."

/-- The system prompt of `src/main.py` (lines 231-232; the apostrophe is
spelled via `apos`). -/
def system_prompt_main : String :=
  "You are a digital twin of a person based on their CV/resume. \nAnswer questions naturally and conversationally as if you are this person. Don"
    ++ apos ++ "t be too professional, act like a normal person with fun personality."

/-- The truncation marker appended when the cached text exceeds 12,000
characters. -/
def truncMarker : String := "\n\n[Note: CV content truncated for length]"

/-- The `cv_text` computation of `_chat_with_me_impl` (identical in both
scripts): `cv_content[:12000]` when longer than `max_cv_length = 12000`, then
the marker appended under the same test. -/
def make_cv_text (cv_content : String) : String :=
  let cv_text := if strLen cv_content > 12000 then strTake cv_content 12000 else cv_content
  if strLen cv_content > 12000 then cv_text ++ truncMarker else cv_text

/-- The single user turn: `f"My CV/Resume:\n\n{cv_text}\n\n\nMessage: {message}"`. -/
def userTurn (cv_text message : String) : String :=
  "My CV/Resume:\n\n" ++ cv_text ++ "\n\n\nMessage: " ++ message

/-- The `try` block shared verbatim by both `_chat_with_me_impl` variants
(lines 200-248 of `src/cv_digital_twin.py`, lines 227-273 of `src/main.py`;
they differ only in the system prompt): obtain the client (`ImportError` /
`ValueError` messages are returned verbatim as error results), truncate the
cached text, issue the completion request, and wrap failures of the call
itself as `"Error calling OpenAI API: ..."`.  Returns the result, the
post-value of `openai_client`, and the requests issued. -/
def respond (env : Env) (systemPrompt : String) (cache : Cache)
    (client0 : Option Client) (message : String) :
    ChatResult × Option Client × List CompletionRequest :=
  match get_openai_client env client0 with
  | (Except.error e, client1) => (ChatResult.error e.msg, client1, [])
  | (Except.ok _, client1) =>
    let cv_text := make_cv_text (cache.cv_content.getD "")
    let req : CompletionRequest :=
      ⟨openai_model env, systemPrompt, userTurn cv_text message⟩
    match env.completions req with
    | Except.error e =>
      (ChatResult.error ("Error calling OpenAI API: " ++ e), client1, [req])
    | Except.ok resp =>
      (ChatResult.ok message resp.content "CV Digital Twin (OpenAI)" resp.model,
        client1, [req])

/-- Wrap `respond` back into the full server state. -/
def runResponder (env : Env) (systemPrompt : String) (st : ServerState)
    (message : String) : ChatResult × ServerState × List CompletionRequest :=
  let r := respond env systemPrompt st.cache st.client message
  (r.fst, ⟨st.cache, r.snd.fst⟩, r.snd.snd)

/-- The error result returned by `src/cv_digital_twin.py` when neither an
explicit path nor auto-discovery produced a document. -/
def noCvLoadedMsg : String :=
  "No CV loaded. Please provide a cv_path parameter or place your CV PDF in the docs/ directory."

/-- `src/cv_digital_twin.py` `_chat_with_me_impl` after the explicit-path
block: if `cv_content is None`, try `find_cv_in_docs` and load its result
(errors wrapped as `"Found CV at ... but failed to load: ..."`), else report
no CV; then run the shared try block. -/
def afterExplicit_cv (env : Env) (fs : FS) (st : ServerState) (message : String) :
    ChatResult × ServerState × List CompletionRequest :=
  match st.cache.cv_content with
  | some _ => runResponder env system_prompt_cv st message
  | none =>
    match find_cv_in_docs fs with
    | some auto_path =>
      match load_cv env fs auto_path with
      | Except.error e =>
        (ChatResult.error
          ("Found CV at " ++ auto_path ++ " but failed to load: " ++ e.msg), st, [])
      | Except.ok cache1 =>
        runResponder env system_prompt_cv ⟨cache1, st.client⟩ message
    | none => (ChatResult.error noCvLoadedMsg, st, [])

/-- `src/main.py` `_chat_with_me_impl` after the explicit-path block: if
`cv_content is None`, run `load_all_pdfs_from_docs`; a `FileNotFoundError`
is reported verbatim, any other exception as
`"Failed to load PDFs from docs directory: ..."`; then the shared try block. -/
def afterExplicit_main (env : Env) (fs : FS) (st : ServerState) (message : String) :
    ChatResult × ServerState × List CompletionRequest :=
  match st.cache.cv_content with
  | some _ => runResponder env system_prompt_main st message
  | none =>
    match load_all_pdfs_from_docs env fs with
    | Except.error (PyErr.fileNotFound m) => (ChatResult.error m, st, [])
    | Except.error e =>
      (ChatResult.error ("Failed to load PDFs from docs directory: " ++ e.msg), st, [])
    | Except.ok cache1 =>
      runResponder env system_prompt_main ⟨cache1, st.client⟩ message

/-- `_chat_with_me_impl` of `src/cv_digital_twin.py` (lines 156-248).  The
guard `if cv_path:` is Python truthiness, so `None` and `""` both skip the
explicit load; a truthy path is loaded unconditionally, any exception being
returned immediately as `"Failed to load CV: ..."` without touching the
auto-discovery branch. -/
def chat_with_me_impl_cv (env : Env) (fs : FS) (st : ServerState)
    (message : String) (cv_path : Option String) :
    ChatResult × ServerState × List CompletionRequest :=
  match cv_path with
  | some p =>
    if strTruthy p then
      match load_cv env fs p with
      | Except.error e =>
        (ChatResult.error ("Failed to load CV: " ++ e.msg), st, [])
      | Except.ok cache1 =>
        runResponder env system_prompt_cv ⟨cache1, st.client⟩ message
    else afterExplicit_cv env fs st message
  | none => afterExplicit_cv env fs st message

/-- `_chat_with_me_impl` of `src/main.py` (lines 185-273); the explicit-path
block is identical to the other variant, the fallback differs. -/
def chat_with_me_impl_main (env : Env) (fs : FS) (st : ServerState)
    (message : String) (cv_path : Option String) :
    ChatResult × ServerState × List CompletionRequest :=
  match cv_path with
  | some p =>
    if strTruthy p then
      match load_cv env fs p with
      | Except.error e =>
        (ChatResult.error ("Failed to load CV: " ++ e.msg), st, [])
      | Except.ok cache1 =>
        runResponder env system_prompt_main ⟨cache1, st.client⟩ message
    else afterExplicit_main env fs st message
  | none => afterExplicit_main env fs st message

deriving instance DecidableEq for Except


/-! ### Concrete fixtures (used by witnesses and counterexamples) -/

/-- A completion service that always answers. -/
def svcOk : CompletionRequest → Except String CompletionResponse :=
  fun _ => Except.ok ⟨"the answer", "gpt-x"⟩

/-- All libraries importable, API key set, service healthy. -/
def envFull : Env :=
  { hasOpenAI := true, hasPdfplumber := true, hasPyPDF2 := true,
    apiKey := some "k", openaiModelEnv := none, completions := svcOk }

/-- Same, but `OPENAI_API_KEY` unset. -/
def envNoKey : Env := { envFull with apiKey := none }

/-- Empty filesystem, no `docs/` directory. -/
def fsEmpty : FS := { files := [], docsListing := none }

/-- A well-formed one-page PDF whose text is `t`, extractable by both
backends. -/
def pdfWith (t : String) : PdfFile := ⟨Except.ok [some t], Except.ok [t]⟩

/-- A PDF that makes both backends raise. -/
def pdfBroken : PdfFile := ⟨Except.error "boom", Except.error "bang"⟩

/-- A `docs/` directory whose glob enumeration yields `b.pdf` before
`a.pdf` (directory order is OS-dependent and unsorted). -/
def fsGlobOrder : FS := { files := [], docsListing := some ["b.pdf", "a.pdf"] }

/-- A zero-page PDF: extraction succeeds with the empty string. -/
def fsEmptyDoc : FS :=
  { files := [("p.pdf", ⟨Except.ok [], Except.ok []⟩)], docsListing := none }

/-- A `docs/` directory holding exactly one well-formed PDF. -/
def fsOneDoc : FS :=
  { files := [("docs/a.pdf", pdfWith "hello")], docsListing := some ["a.pdf"] }

/-- A `docs/` directory with three PDFs, the middle (in sorted order) of
which fails extraction. -/
def fsThreeDocs : FS :=
  { files := [("docs/a.pdf", pdfWith "alpha"), ("docs/b.pdf", pdfBroken),
              ("docs/c.pdf", pdfWith "gamma")],
    docsListing := some ["c.pdf", "a.pdf", "b.pdf"] }

/-- A server state whose cache holds `"cv text"` and whose client is built. -/
def stLoaded : ServerState :=
  ⟨⟨some "cv text", CvMetadata.single "p" "p" 7 true⟩, some ⟨"k"⟩⟩

/-- A pristine server state. -/
def stFresh : ServerState := ⟨initialCache, none⟩

/-- A string of 12,001 identical characters (above the truncation limit). -/
def longA : String := String.mk (List.replicate 12001 'a')

/-- The cache value `load_all_pdfs_from_docs` produces on `fsThreeDocs`:
the two good documents under their headers, `b.pdf` skipped. -/
def cacheThree : Cache :=
  ⟨some ("\n\n--- Content from a.pdf ---\n\nalpha\n\n\n--- Content from c.pdf ---\n\ngamma"),
   CvMetadata.multi ["docs/a.pdf", "docs/c.pdf"] ["a.pdf", "c.pdf"] 71 2 true⟩

/-! ### Order lemmas for `sortStrings` (Python `sorted`) -/

/-- `charListLt` is asymmetric. -/
theorem charListLt_asymm : ∀ a b : List Char,
    charListLt a b = true → charListLt b a = false := by
  intro a
  induction a with
  | nil =>
    intro b h
    cases b with
    | nil => simp [charListLt] at h
    | cons y ys => rfl
  | cons x xs ih =>
    intro b h
    cases b with
    | nil => simp [charListLt] at h
    | cons y ys =>
      simp only [charListLt] at h ⊢
      rcases Nat.lt_trichotomy x.toNat y.toNat with h1 | h1 | h1
      · simp [h1, Nat.lt_asymm h1]
      · simp [h1, Nat.lt_irrefl] at h ⊢
        exact ih ys h
      · simp [h1, Nat.lt_asymm h1] at h

/-- The negation of `charListLt` (a "less than or equal") is transitive. -/
theorem charListLt_neg_trans : ∀ a b c : List Char,
    charListLt b a = false → charListLt c b = false → charListLt c a = false := by
  intro a
  induction a with
  | nil =>
    intro b c _ _
    cases c with
    | nil => rfl
    | cons z zs => rfl
  | cons x xs ih =>
    intro b c hba hcb
    cases b with
    | nil => simp [charListLt] at hba
    | cons y ys =>
      cases c with
      | nil => simp [charListLt] at hcb
      | cons z zs =>
        simp only [charListLt] at hba hcb ⊢
        by_cases hyx : y.toNat < x.toNat
        · simp [hyx] at hba
        · by_cases hzy : z.toNat < y.toNat
          · simp [hzy] at hcb
          · have hzx : ¬ z.toNat < x.toNat := by omega
            by_cases hxz : x.toNat < z.toNat
            · simp [hzx, hxz]
            · have hxy : x.toNat = y.toNat := by omega
              have hyz : y.toNat = z.toNat := by omega
              simp [hxy, Nat.lt_irrefl] at hba
              simp [hyz, Nat.lt_irrefl] at hcb
              simp [hzx, hxz]
              exact ih ys zs hba hcb

/-- Asymmetry at the `strLt` level. -/
theorem strLt_asymm {a b : String} (h : strLt a b = true) : strLt b a = false :=
  charListLt_asymm a.data b.data h

/-- Transitivity of "not greater" at the `strLt` level. -/
theorem strLt_neg_trans {a b c : String} (h1 : strLt b a = false)
    (h2 : strLt c b = false) : strLt c a = false :=
  charListLt_neg_trans a.data b.data c.data h1 h2

/-- `insertSorted` produces a permutation of consing. -/
theorem insertSorted_perm (s : String) :
    ∀ l : List String, (insertSorted s l).Perm (s :: l) := by
  intro l
  induction l with
  | nil => rfl
  | cons t ts ih =>
    by_cases h : strLt t s
    · simpa [insertSorted, h] using ((ih.cons t).trans (List.Perm.swap s t ts))
    · simp [insertSorted, h]

/-- Membership in `insertSorted`. -/
theorem mem_insertSorted {u s : String} {l : List String}
    (h : u ∈ insertSorted s l) : u = s ∨ u ∈ l := by
  have := (insertSorted_perm s l).mem_iff.mp h
  simpa using this

/-- `insertSorted` preserves ascending order. -/
theorem insertSorted_pairwise (s : String) :
    ∀ l : List String, List.Pairwise (fun a b => strLt b a = false) l →
      List.Pairwise (fun a b => strLt b a = false) (insertSorted s l) := by
  intro l
  induction l with
  | nil => intro _; simp [insertSorted]
  | cons t ts ih =>
    intro h
    rcases List.pairwise_cons.mp h with ⟨ht, hts⟩
    by_cases hlt : strLt t s
    · simp only [insertSorted, hlt, if_pos]
      refine List.pairwise_cons.mpr ⟨?_, ih hts⟩
      intro u hu
      rcases mem_insertSorted hu with rfl | hu2
      · exact strLt_asymm hlt
      · exact ht u hu2
    · have hlt2 : strLt t s = false := Bool.not_eq_true _ |>.mp hlt
      simp only [insertSorted, hlt2, Bool.false_eq_true, if_neg, not_false_iff]
      refine List.pairwise_cons.mpr ⟨?_, h⟩
      intro u hu
      rcases List.mem_cons.mp hu with rfl | hu2
      · exact hlt2
      · exact strLt_neg_trans hlt2 (ht u hu2)

/-- `sortStrings` is a permutation of its input. -/
theorem sortStrings_perm : ∀ l : List String, (sortStrings l).Perm l := by
  intro l
  induction l with
  | nil => rfl
  | cons s ss ih => exact (insertSorted_perm s (sortStrings ss)).trans (ih.cons s)

/-- `sortStrings` is ascending for Python string order. -/
theorem sortStrings_sorted : ∀ l : List String,
    List.Pairwise (fun a b => strLt b a = false) (sortStrings l) := by
  intro l
  induction l with
  | nil => simp [sortStrings]
  | cons s ss ih => exact insertSorted_pairwise s (sortStrings ss) ih

/-! ### C5 — document auto-discovery -/

/-- C5 (counterexample): the claim says variant A falls back to the
lexicographically first `*.pdf` match, but `find_cv_in_docs` takes the first
entry of the unsorted glob enumeration: with enumeration order
`["b.pdf", "a.pdf"]` and no conventional name present it returns
`docs/b.pdf`, while the lexicographically first match is `a.pdf` (as
the sort of variant B shows). -/
theorem C5_counterexample :
    find_cv_in_docs fsGlobOrder = some "docs/b.pdf"
    ∧ sortStrings ["b.pdf", "a.pdf"] = ["a.pdf", "b.pdf"]
    ∧ some ("docs/" ++ "b.pdf") ≠ some ("docs/" ++ "a.pdf") := by decide

/-- C5 (amended): variant A returns the first existing file from the priority
list `CV.pdf, cv.pdf, resume.pdf, Resume.pdf`, falling back to the first
`*.pdf` match in directory enumeration order (not necessarily
lexicographic); variant B returns all `*.pdf` matches sorted
lexicographically (a sorted permutation of the matches); both return an
empty result when `docs/` is missing, and variant B also when there is no
match. -/
theorem C5_amended_discovery :
    (∀ (fs : FS) (listing : List String) (n : String), fs.docsListing = some listing →
      cv_names.find? (fun m => listing.contains m) = some n →
      find_cv_in_docs fs = some ("docs/" ++ n))
    ∧ (∀ (fs : FS) (listing : List String), fs.docsListing = some listing →
      cv_names.find? (fun m => listing.contains m) = none →
      find_cv_in_docs fs
        = (listing.filter (fun n => strEndsWith n ".pdf")).head?.map
            (fun n => "docs/" ++ n))
    ∧ (∀ (fs : FS) (listing : List String), fs.docsListing = some listing →
      find_all_pdfs_in_docs fs
        = (sortStrings (listing.filter (fun n => strEndsWith n ".pdf"))).map
            (fun n => "docs/" ++ n)
      ∧ (sortStrings (listing.filter (fun n => strEndsWith n ".pdf"))).Perm
          (listing.filter (fun n => strEndsWith n ".pdf"))
      ∧ List.Pairwise (fun a b => strLt b a = false)
          (sortStrings (listing.filter (fun n => strEndsWith n ".pdf"))))
    ∧ (∀ fs : FS, fs.docsListing = none →
      find_cv_in_docs fs = none ∧ find_all_pdfs_in_docs fs = []) := by
  refine ⟨?_, ?_, ?_, ?_⟩
  · intro fs listing n hd hf
    simp only [find_cv_in_docs, hd, hf]
  · intro fs listing hd hf
    simp only [find_cv_in_docs, hd, hf]
    cases listing.filter (fun n => strEndsWith n ".pdf") with
    | nil => rfl
    | cons n ns => rfl
  · intro fs listing hd
    exact ⟨by simp [find_all_pdfs_in_docs, hd], sortStrings_perm _, sortStrings_sorted _⟩
  · intro fs hd
    exact ⟨by simp [find_cv_in_docs, hd], by simp [find_all_pdfs_in_docs, hd]⟩

/-- C5 (witness): concrete instances of each clause of the amended claim. -/
theorem C5_witness :
    find_cv_in_docs { files := [], docsListing := some ["x.pdf", "cv.pdf"] }
      = some ("docs/" ++ "cv.pdf")
    ∧ find_cv_in_docs fsGlobOrder
      = (["b.pdf", "a.pdf"].filter (fun n => strEndsWith n ".pdf")).head?.map
          (fun n => "docs/" ++ n)
    ∧ find_all_pdfs_in_docs fsThreeDocs
      = (sortStrings (["c.pdf", "a.pdf", "b.pdf"].filter
          (fun n => strEndsWith n ".pdf"))).map (fun n => "docs/" ++ n)
    ∧ find_cv_in_docs fsEmpty = none ∧ find_all_pdfs_in_docs fsEmpty = [] :=
  ⟨C5_amended_discovery.1 _ ["x.pdf", "cv.pdf"] "cv.pdf" rfl (by decide),
   C5_amended_discovery.2.1 fsGlobOrder ["b.pdf", "a.pdf"] rfl (by decide),
   (C5_amended_discovery.2.2.1 fsThreeDocs ["c.pdf", "a.pdf", "b.pdf"] rfl).1,
   (C5_amended_discovery.2.2.2 fsEmpty rfl).1,
   (C5_amended_discovery.2.2.2 fsEmpty rfl).2⟩

/-! ### C6 — extraction backend fallback -/

/-- C6 (counterexample): the claim says successful-but-empty per-page text in
the first backend causes fallback to the second; in the code the `pdfplumber`
branch returns unconditionally after `"\n\n".join(... or "")`, so a one-page
document with no extractable text yields `""` from the first backend even
though the second would yield `"hello"`. -/
theorem C6_counterexample :
    extract_text_from_pdf envFull ⟨Except.ok [none], Except.ok ["hello"]⟩
      = Except.ok ""
    ∧ (Except.ok "" : Except PyErr String) ≠ Except.ok "hello" := by decide

/-- C6 (amended): backends are tried in fixed priority order (pdfplumber
first, PyPDF2 second); only a thrown exception (or an unavailable package)
causes fallback — a successful extraction is returned directly even when
every page is empty; when both backends are unavailable or raise, the
operation fails with the `ImportError` naming both backend packages. -/
theorem C6_amended_fallback :
    ∀ (env : Env) (f : PdfFile),
      (∀ pages, env.hasPdfplumber = true → f.plumber = Except.ok pages →
        extract_text_from_pdf env f
          = Except.ok (joinPages (pages.map (fun p => p.getD ""))))
      ∧ (∀ pages, (env.hasPdfplumber = false ∨ ∃ e, f.plumber = Except.error e) →
          env.hasPyPDF2 = true → f.pypdf2 = Except.ok pages →
          extract_text_from_pdf env f = Except.ok (joinPages pages))
      ∧ ((env.hasPdfplumber = false ∨ ∃ e, f.plumber = Except.error e) →
         (env.hasPyPDF2 = false ∨ ∃ e, f.pypdf2 = Except.error e) →
         extract_text_from_pdf env f = Except.error (PyErr.importError noPdfLibMsg)) := by
  intro env f
  refine ⟨?_, ?_, ?_⟩
  · intro pages h1 h2
    simp [extract_text_from_pdf, h1, h2]
  · intro pages h1 h2 h3
    rcases h1 with h1 | ⟨e, h1⟩ <;> simp [extract_text_from_pdf, h1, h2, h3]
  · intro h1 h2
    rcases h1 with h1 | ⟨e1, h1⟩ <;> rcases h2 with h2 | ⟨e2, h2⟩ <;>
      simp [extract_text_from_pdf, h1, h2]

/-- C6 (witness): the three clauses of the amended claim at concrete
inputs. -/
theorem C6_witness :
    extract_text_from_pdf envFull ⟨Except.ok [some "hi", none], Except.ok ["x"]⟩
      = Except.ok (joinPages (([some "hi", none] : List (Option String)).map
          (fun p => p.getD "")))
    ∧ extract_text_from_pdf envFull ⟨Except.error "boom", Except.ok ["x"]⟩
      = Except.ok (joinPages ["x"])
    ∧ extract_text_from_pdf envFull pdfBroken
      = Except.error (PyErr.importError noPdfLibMsg) :=
  ⟨(C6_amended_fallback envFull _).1 [some "hi", none] rfl rfl,
   (C6_amended_fallback envFull _).2.1 ["x"] (Or.inr ⟨"boom", rfl⟩) rfl rfl,
   (C6_amended_fallback envFull pdfBroken).2.2 (Or.inr ⟨"boom", rfl⟩)
     (Or.inr ⟨"bang", rfl⟩)⟩

/-! ### C7 — cache text shape invariant -/

/-- C7 (counterexample): two reachable `DocumentCache` states refute the
stated invariant.  Loading a zero-page document with `load_cv` yields a
loaded cache whose text is `""` (not a non-empty concatenation), and a
multi-path `load_all_pdfs_from_docs` that loads exactly one source still
prefixes it with a separator header (the claim says a single-source load
carries no header). -/
theorem C7_counterexample :
    load_cv envFull fsEmptyDoc "p.pdf"
      = Except.ok ⟨some "", CvMetadata.single "p.pdf" "p.pdf" 0 true⟩
    ∧ strLen "" = 0
    ∧ load_all_pdfs_from_docs envFull fsOneDoc
      = Except.ok ⟨some "\n\n--- Content from a.pdf ---\n\nhello",
          CvMetadata.multi ["docs/a.pdf"] ["a.pdf"] 35 1 true⟩
    ∧ ("\n\n--- Content from a.pdf ---\n\nhello" : String) ≠ "hello" := by decide

/-- C7 (amended): the cache text is either entirely absent or determined by
the load that produced it: a single-path `load_cv` stores exactly the
extracted content of its one source with no header (possibly empty), and a
multi-path `load_all_pdfs_from_docs` stores the newline-join of the loaded
contents of the loaded documents, each prefixed by a separator header naming its source —
with the header present even when only one source loaded. -/
theorem C7_amended_cache_shape :
    ∀ (env : Env) (fs : FS),
      (∀ (p : String) (c : Cache), load_cv env fs p = Except.ok c →
        ∃ f t, fs.lookup p = some f ∧ extract_text_from_pdf env f = Except.ok t
          ∧ c.cv_content = some t)
      ∧ (∀ c : Cache, load_all_pdfs_from_docs env fs = Except.ok c →
        ∃ loaded : List (String × String), loaded ≠ []
          ∧ loaded = (find_all_pdfs_in_docs fs).filterMap
              (fun p => (tryLoadOne env fs p).map (fun t => (p, t)))
          ∧ c.cv_content = some (String.intercalate "\n"
              (loaded.map (fun pt => contentHeader pt.fst pt.snd)))) := by
  intro env fs
  constructor
  · intro p c h
    cases hl : fs.lookup p with
    | none =>
      simp only [load_cv, hl] at h
      exact Except.noConfusion h
    | some f =>
      cases he : extract_text_from_pdf env f with
      | error e =>
        simp only [load_cv, hl, he] at h
        exact Except.noConfusion h
      | ok t =>
        simp only [load_cv, hl, he] at h
        obtain rfl := Except.ok.inj h
        exact ⟨f, t, rfl, he, rfl⟩
  · intro c h
    simp only [load_all_pdfs_from_docs] at h
    by_cases h1 : (find_all_pdfs_in_docs fs).isEmpty
    · rw [if_pos h1] at h; exact Except.noConfusion h
    · rw [if_neg h1] at h
      set loaded := (find_all_pdfs_in_docs fs).filterMap
        (fun p => (tryLoadOne env fs p).map (fun t => (p, t))) with hloaded
      by_cases h2 : loaded.isEmpty
      · rw [if_pos h2] at h; exact Except.noConfusion h
      · rw [if_neg h2] at h
        obtain rfl := Except.ok.inj h
        exact ⟨loaded, by simpa using h2, rfl, rfl⟩

/-- C7 (witness): the amended claim applied to the concrete single-source
multi-path load. -/
theorem C7_witness :
    ∃ loaded : List (String × String), loaded ≠ []
      ∧ loaded = (find_all_pdfs_in_docs fsOneDoc).filterMap
          (fun p => (tryLoadOne envFull fsOneDoc p).map (fun t => (p, t)))
      ∧ (some "\n\n--- Content from a.pdf ---\n\nhello" : Option String)
          = some (String.intercalate "\n"
              (loaded.map (fun pt => contentHeader pt.fst pt.snd))) :=
  (C7_amended_cache_shape envFull fsOneDoc).2
    ⟨some "\n\n--- Content from a.pdf ---\n\nhello",
      CvMetadata.multi ["docs/a.pdf"] ["a.pdf"] 35 1 true⟩ (by decide)

/-! ### C9 — lazy client construction and caching -/

/-- With a cached client and OpenAI importable, the shared try block always
issues exactly one completion request. -/
theorem respond_requests_length (env : Env) (sp : String) (cache : Cache)
    (c : Client) (message : String) (hO : env.hasOpenAI = true) :
    (respond env sp cache (some c) message).snd.snd.length = 1 := by
  simp only [respond, get_openai_client, hO, Bool.not_true, Bool.false_eq_true,
    if_false]
  cases env.completions ⟨openai_model env, sp,
    userTurn (make_cv_text (cache.cv_content.getD "")) message⟩ <;> rfl

/-- C9: a failed client construction leaves `openai_client` at `None` (the
`raise` precedes the assignment), so a later call re-reads the environment
and succeeds once the key is set; after one success the client is cached and
returned without re-checking `OPENAI_API_KEY` (last clause: with a cached
client the completion call is issued no matter what `apiKey` now is). -/
theorem C9_client_caching :
    (∀ env : Env, env.hasOpenAI = true → env.apiKeyTruthy = false →
      get_openai_client env none
        = (Except.error (PyErr.valueError apiKeyMissingMsg), none))
    ∧ (∀ (env : Env) (k : String), env.hasOpenAI = true → env.apiKey = some k →
      strTruthy k = true →
      get_openai_client env none = (Except.ok ⟨k⟩, some ⟨k⟩))
    ∧ (∀ (env : Env) (c : Client), env.hasOpenAI = true →
      get_openai_client env (some c) = (Except.ok c, some c))
    ∧ (∀ (env : Env) (fs : FS) (st : ServerState) (message s : String) (c : Client),
      env.hasOpenAI = true → st.client = some c → st.cache.cv_content = some s →
      (chat_with_me_impl_cv env fs st message none).snd.snd.length = 1
      ∧ (chat_with_me_impl_main env fs st message none).snd.snd.length = 1) := by
  refine ⟨?_, ?_, ?_, ?_⟩
  · intro env h1 h2
    simp [get_openai_client, h1, h2]
  · intro env k h1 h2 h3
    simp [get_openai_client, Env.apiKeyTruthy, h1, h2, h3]
  · intro env c h
    simp [get_openai_client, h]
  · intro env fs st message s c hO hcl hc
    constructor
    · simp only [chat_with_me_impl_cv, afterExplicit_cv, hc, runResponder]
      rw [hcl]
      exact respond_requests_length env system_prompt_cv st.cache c message hO
    · simp only [chat_with_me_impl_main, afterExplicit_main, hc, runResponder]
      rw [hcl]
      exact respond_requests_length env system_prompt_main st.cache c message hO

/-- C9 (witness): the four clauses at concrete states; note the third and
fourth run with the key unset but a cached client. -/
theorem C9_witness :
    get_openai_client envNoKey none
      = (Except.error (PyErr.valueError apiKeyMissingMsg), none)
    ∧ get_openai_client envFull none = (Except.ok ⟨"k"⟩, some ⟨"k"⟩)
    ∧ get_openai_client envNoKey (some ⟨"k"⟩) = (Except.ok ⟨"k"⟩, some ⟨"k"⟩)
    ∧ (chat_with_me_impl_main envNoKey fsEmpty stLoaded "hi" none).snd.snd.length = 1 :=
  ⟨C9_client_caching.1 envNoKey rfl rfl,
   C9_client_caching.2.1 envFull "k" rfl rfl (by decide),
   C9_client_caching.2.2.1 envNoKey ⟨"k"⟩ rfl,
   (C9_client_caching.2.2.2 envNoKey fsEmpty stLoaded "hi" "cv text" ⟨"k"⟩
     rfl rfl rfl).2⟩

/-! ### C8 — missing OPENAI_API_KEY -/

/-- C8 (counterexample): the claim quantifies over every call with the key
unset, but when a client was cached by an earlier call the key is never
re-read: with `OPENAI_API_KEY` unset and a cached client, the call succeeds
and one completion request is issued — neither an error result nor the
absence of a network call. -/
theorem C8_counterexample :
    chat_with_me_impl_main envNoKey fsEmpty stLoaded "hi" none
      = (ChatResult.ok "hi" "the answer" "CV Digital Twin (OpenAI)" "gpt-x",
         stLoaded,
         [⟨"gpt-5-mini-2025-08-07", system_prompt_main, userTurn "cv text" "hi"⟩])
    ∧ envNoKey.apiKey = none := ⟨rfl, rfl⟩

/-- C8 (amended): if `OPENAI_API_KEY` is unset (or empty) at call time and no
client has been cached yet, the call returns the `ValueError` message — which
names the missing credential — the state is unchanged, and no completion
request is issued. -/
theorem C8_amended_missing_key :
    ∀ (env : Env) (fs : FS) (st : ServerState) (message s : String),
      env.hasOpenAI = true → env.apiKeyTruthy = false → st.client = none →
      st.cache.cv_content = some s →
      chat_with_me_impl_cv env fs st message none
        = (ChatResult.error apiKeyMissingMsg, st, [])
      ∧ chat_with_me_impl_main env fs st message none
        = (ChatResult.error apiKeyMissingMsg, st, [])
      ∧ "OPENAI_API_KEY".data.isPrefixOf apiKeyMissingMsg.data = true := by
  intro env fs st message s hO hk hcl hc
  refine ⟨?_, ?_, by decide⟩
  · simp [chat_with_me_impl_cv, afterExplicit_cv, hc, runResponder, respond,
      get_openai_client, hO, hk, hcl, PyErr.msg]
    rw [← hcl]
  · simp [chat_with_me_impl_main, afterExplicit_main, hc, runResponder, respond,
      get_openai_client, hO, hk, hcl, PyErr.msg]
    rw [← hcl]

/-- C8 (witness): the amended claim at a concrete state (loaded cache, no
cached client, key unset). -/
theorem C8_witness :
    chat_with_me_impl_cv envNoKey fsEmpty ⟨stLoaded.cache, none⟩ "hi" none
      = (ChatResult.error apiKeyMissingMsg, ⟨stLoaded.cache, none⟩, [])
    ∧ chat_with_me_impl_main envNoKey fsEmpty ⟨stLoaded.cache, none⟩ "hi" none
      = (ChatResult.error apiKeyMissingMsg, ⟨stLoaded.cache, none⟩, []) :=
  ⟨(C8_amended_missing_key envNoKey fsEmpty ⟨stLoaded.cache, none⟩ "hi" "cv text"
      rfl rfl rfl rfl).1,
   (C8_amended_missing_key envNoKey fsEmpty ⟨stLoaded.cache, none⟩ "hi" "cv text"
      rfl rfl rfl rfl).2.1⟩

/-! ### C3 — prompt truncation -/

/-- With a cached client and OpenAI importable, the shared try block issues
exactly the one request built from the cached text. -/
theorem respond_requests (env : Env) (sp : String) (cache : Cache)
    (c : Client) (message : String) (hO : env.hasOpenAI = true) :
    (respond env sp cache (some c) message).snd.snd
      = [⟨openai_model env, sp,
          userTurn (make_cv_text (cache.cv_content.getD "")) message⟩] := by
  simp only [respond, get_openai_client, hO, Bool.not_true, Bool.false_eq_true,
    if_false]
  cases env.completions ⟨openai_model env, sp,
    userTurn (make_cv_text (cache.cv_content.getD "")) message⟩ <;> rfl

/-- C3: the document text placed in the prompt is the first 12,000 characters
plus the trailing truncation marker when the cached text is longer than
12,000 characters, and the unmodified text otherwise; and the single request
either entry point sends carries exactly that text inside its user turn. -/
theorem C3_prompt_truncation :
    (∀ s : String,
      (strLen s > 12000 → make_cv_text s = strTake s 12000 ++ truncMarker)
      ∧ (strLen s ≤ 12000 → make_cv_text s = s))
    ∧ (∀ (env : Env) (fs : FS) (st : ServerState) (message s : String) (c : Client),
      env.hasOpenAI = true → st.cache.cv_content = some s → st.client = some c →
      (chat_with_me_impl_cv env fs st message none).snd.snd
        = [⟨openai_model env, system_prompt_cv, userTurn (make_cv_text s) message⟩]
      ∧ (chat_with_me_impl_main env fs st message none).snd.snd
        = [⟨openai_model env, system_prompt_main, userTurn (make_cv_text s) message⟩]) := by
  constructor
  · intro s
    constructor
    · intro h
      simp [make_cv_text, h]
    · intro h
      have h2 : ¬ (strLen s > 12000) := Nat.not_lt.mpr h
      simp [make_cv_text, h2]
  · intro env fs st message s c hO hc hcl
    constructor
    · simp only [chat_with_me_impl_cv, afterExplicit_cv, hc, runResponder]
      rw [hcl, respond_requests env system_prompt_cv st.cache c message hO, hc]
      rfl
    · simp only [chat_with_me_impl_main, afterExplicit_main, hc, runResponder]
      rw [hcl, respond_requests env system_prompt_main st.cache c message hO, hc]
      rfl

/-- C3 (witness): a 12,001-character text is truncated and marked, a short
text passes unmodified, and the concrete request list of a call carries the
truncated text. -/
theorem C3_witness :
    strLen longA > 12000
    ∧ make_cv_text longA = strTake longA 12000 ++ truncMarker
    ∧ make_cv_text "short" = "short"
    ∧ (chat_with_me_impl_cv envFull fsEmpty stLoaded "hi" none).snd.snd
        = [⟨openai_model envFull, system_prompt_cv,
            userTurn (make_cv_text "cv text") "hi"⟩] := by
  have hlong : strLen longA > 12000 := by
    show 12000 < (String.mk (List.replicate 12001 'a')).data.length
    rw [show (String.mk (List.replicate 12001 'a')).data
          = List.replicate 12001 'a' from rfl, List.length_replicate]
    omega
  exact ⟨hlong, (C3_prompt_truncation.1 longA).1 hlong,
    (C3_prompt_truncation.1 "short").2 (by decide),
    (C3_prompt_truncation.2 envFull fsEmpty stLoaded "hi" "cv text" ⟨"k"⟩
      rfl rfl rfl).1⟩

/-! ### C1 — failed loads leave the cache unchanged; no unload -/

/-- A successful `load_cv` always stores extracted text (never `None`). -/
theorem load_cv_ok_content {env : Env} {fs : FS} {p : String} {c : Cache}
    (h : load_cv env fs p = Except.ok c) : ∃ t, c.cv_content = some t := by
  cases hl : fs.lookup p with
  | none =>
    simp only [load_cv, hl] at h
    exact Except.noConfusion h
  | some f =>
    cases he : extract_text_from_pdf env f with
    | error e =>
      simp only [load_cv, hl, he] at h
      exact Except.noConfusion h
    | ok t =>
      simp only [load_cv, hl, he] at h
      obtain rfl := Except.ok.inj h
      exact ⟨t, rfl⟩

/-- C1: every failed load leaves the `DocumentCache` exactly in its prior
state — a failed explicit-path load (in particular a non-existent path, whose
error result carries the not-found message), a failed multi-document batch,
and a failed auto-discovery load all return an error result with the server
state untouched — and no operation ever transitions the cache from Loaded
back to Unloaded. -/
theorem C1_failed_load_preserves_cache :
    (∀ (env : Env) (fs : FS) (st : ServerState) (message p : String) (e : PyErr),
      strTruthy p = true → load_cv env fs p = Except.error e →
      chat_with_me_impl_cv env fs st message (some p)
        = (ChatResult.error ("Failed to load CV: " ++ e.msg), st, [])
      ∧ chat_with_me_impl_main env fs st message (some p)
        = (ChatResult.error ("Failed to load CV: " ++ e.msg), st, []))
    ∧ (∀ (env : Env) (fs : FS) (st : ServerState) (message p : String),
      strTruthy p = true → fs.lookup p = none →
      chat_with_me_impl_cv env fs st message (some p)
        = (ChatResult.error ("Failed to load CV: " ++ ("CV file not found: " ++ p)),
           st, [])
      ∧ chat_with_me_impl_main env fs st message (some p)
        = (ChatResult.error ("Failed to load CV: " ++ ("CV file not found: " ++ p)),
           st, []))
    ∧ (∀ (env : Env) (fs : FS) (st : ServerState) (message : String) (e : PyErr),
      st.cache.cv_content = none → load_all_pdfs_from_docs env fs = Except.error e →
      (chat_with_me_impl_main env fs st message none).snd.fst = st)
    ∧ (∀ (env : Env) (fs : FS) (st : ServerState) (message ap : String) (e : PyErr),
      st.cache.cv_content = none → find_cv_in_docs fs = some ap →
      load_cv env fs ap = Except.error e →
      chat_with_me_impl_cv env fs st message none
        = (ChatResult.error ("Found CV at " ++ ap ++ " but failed to load: " ++ e.msg),
           st, []))
    ∧ (∀ (env : Env) (fs : FS) (st : ServerState) (message : String)
        (cvp : Option String) (s : String), st.cache.cv_content = some s →
      (chat_with_me_impl_cv env fs st message cvp).snd.fst.cache.cv_content ≠ none
      ∧ (chat_with_me_impl_main env fs st message cvp).snd.fst.cache.cv_content ≠ none) := by
  refine ⟨?_, ?_, ?_, ?_, ?_⟩
  · intro env fs st message p e hp hl
    constructor
    · simp [chat_with_me_impl_cv, hp, hl]
    · simp [chat_with_me_impl_main, hp, hl]
  · intro env fs st message p hp hl
    have hload : load_cv env fs p
        = Except.error (PyErr.fileNotFound ("CV file not found: " ++ p)) := by
      simp [load_cv, hl]
    constructor
    · simp [chat_with_me_impl_cv, hp, hload, PyErr.msg]
    · simp [chat_with_me_impl_main, hp, hload, PyErr.msg]
  · intro env fs st message e hc hl
    cases e <;> simp [chat_with_me_impl_main, afterExplicit_main, hc, hl]
  · intro env fs st message ap e hc hfind hload
    simp [chat_with_me_impl_cv, afterExplicit_cv, hc, hfind, hload]
  · intro env fs st message cvp s hc
    have hrun : ∀ (sp : String) (st2 : ServerState),
        (runResponder env sp st2 message).snd.fst.cache = st2.cache := fun _ _ => rfl
    have hmain : ∀ sp, (runResponder env sp st message).snd.fst.cache.cv_content ≠ none := by
      intro sp
      rw [hrun sp st, hc]
      exact Option.noConfusion
    cases cvp with
    | none =>
      constructor
      · simp only [chat_with_me_impl_cv, afterExplicit_cv, hc]
        exact hmain system_prompt_cv
      · simp only [chat_with_me_impl_main, afterExplicit_main, hc]
        exact hmain system_prompt_main
    | some p =>
      by_cases hp : strTruthy p
      · constructor
        · simp only [chat_with_me_impl_cv, hp, if_true]
          cases hl : load_cv env fs p with
          | error e =>
            rw [hc]
            exact Option.noConfusion
          | ok c1 =>
            obtain ⟨t, ht⟩ := load_cv_ok_content hl
            rw [hrun system_prompt_cv ⟨c1, st.client⟩]
            rw [ht]
            exact Option.noConfusion
        · simp only [chat_with_me_impl_main, hp, if_true]
          cases hl : load_cv env fs p with
          | error e =>
            rw [hc]
            exact Option.noConfusion
          | ok c1 =>
            obtain ⟨t, ht⟩ := load_cv_ok_content hl
            rw [hrun system_prompt_main ⟨c1, st.client⟩]
            rw [ht]
            exact Option.noConfusion
      · constructor
        · simp only [chat_with_me_impl_cv, hp, if_false, afterExplicit_cv, hc]
          exact hmain system_prompt_cv
        · simp only [chat_with_me_impl_main, hp, if_false, afterExplicit_main, hc]
          exact hmain system_prompt_main

/-- C1 (witness): concrete instances — a missing explicit path leaves a
loaded state untouched with the not-found error; an empty docs directory
leaves the fresh state untouched; a loaded cache stays loaded across a call. -/
theorem C1_witness :
    chat_with_me_impl_cv envFull fsEmpty stLoaded "hi" (some "missing.pdf")
      = (ChatResult.error
          ("Failed to load CV: " ++ ("CV file not found: " ++ "missing.pdf")),
         stLoaded, [])
    ∧ (chat_with_me_impl_main envFull fsEmpty stFresh "hi" none).snd.fst = stFresh
    ∧ (chat_with_me_impl_main envFull fsEmpty stLoaded "hi" none).snd.fst.cache.cv_content
        ≠ none :=
  ⟨(C1_failed_load_preserves_cache.2.1 envFull fsEmpty stLoaded "hi" "missing.pdf"
      (by decide) rfl).1,
   C1_failed_load_preserves_cache.2.2.1 envFull fsEmpty stFresh "hi"
     (PyErr.fileNotFound "No PDF files found in docs/ directory") rfl (by decide),
   (C1_failed_load_preserves_cache.2.2.2.2 envFull fsEmpty stLoaded "hi" none
     "cv text" rfl).2⟩

/-! ### C2 — explicit path forces a fresh reload -/

/-- C2: a truthy explicit `cv_path` always performs a fresh `load_cv` of that
path, ignoring and overwriting whatever is cached: on failure the call
short-circuits with the `Failed to load CV` error, the state untouched and
the auto-discovery path never entered; on success the post-call cache equals
the fresh load result — which does not depend on the prior state, so two
calls with the same path produce identical cache contents — and (with a
client available) each call issues exactly one completion request. -/
theorem C2_explicit_path_forces_reload :
    ∀ (env : Env) (fs : FS) (st : ServerState) (message p : String),
      strTruthy p = true →
      (∀ e : PyErr, load_cv env fs p = Except.error e →
        chat_with_me_impl_cv env fs st message (some p)
          = (ChatResult.error ("Failed to load CV: " ++ e.msg), st, [])
        ∧ chat_with_me_impl_main env fs st message (some p)
          = (ChatResult.error ("Failed to load CV: " ++ e.msg), st, []))
      ∧ (∀ c : Cache, load_cv env fs p = Except.ok c →
        (chat_with_me_impl_cv env fs st message (some p)).snd.fst.cache = c
        ∧ (chat_with_me_impl_main env fs st message (some p)).snd.fst.cache = c)
      ∧ (∀ (c : Cache) (cl : Client), load_cv env fs p = Except.ok c →
        st.client = some cl → env.hasOpenAI = true →
        (chat_with_me_impl_cv env fs st message (some p)).snd.snd.length = 1
        ∧ (chat_with_me_impl_main env fs st message (some p)).snd.snd.length = 1) := by
  intro env fs st message p hp
  refine ⟨?_, ?_, ?_⟩
  · intro e hl
    constructor
    · simp [chat_with_me_impl_cv, hp, hl]
    · simp [chat_with_me_impl_main, hp, hl]
  · intro c hl
    constructor
    · simp [chat_with_me_impl_cv, hp, hl, runResponder]
    · simp [chat_with_me_impl_main, hp, hl, runResponder]
  · intro c cl hl hcl hO
    constructor
    · simp only [chat_with_me_impl_cv, hp, if_true, hl, runResponder]
      rw [show (⟨c, st.client⟩ : ServerState).client = st.client from rfl, hcl]
      exact respond_requests_length env system_prompt_cv c cl message hO
    · simp only [chat_with_me_impl_main, hp, if_true, hl, runResponder]
      rw [show (⟨c, st.client⟩ : ServerState).client = st.client from rfl, hcl]
      exact respond_requests_length env system_prompt_main c cl message hO

/-- C2 (witness): reloading an existing path from an already-loaded state
replaces the cache with the fresh load result and issues one request. -/
theorem C2_witness :
    (chat_with_me_impl_main envFull fsOneDoc stLoaded "hi" (some "docs/a.pdf")).snd.fst.cache
      = ⟨some "hello", CvMetadata.single "docs/a.pdf" "a.pdf" 5 true⟩
    ∧ (chat_with_me_impl_main envFull fsOneDoc stLoaded "hi" (some "docs/a.pdf")).snd.snd.length
      = 1 :=
  ⟨((C2_explicit_path_forces_reload envFull fsOneDoc stLoaded "hi" "docs/a.pdf"
      (by decide)).2.1 ⟨some "hello", CvMetadata.single "docs/a.pdf" "a.pdf" 5 true⟩
      (by decide)).2,
   ((C2_explicit_path_forces_reload envFull fsOneDoc stLoaded "hi" "docs/a.pdf"
      (by decide)).2.2 ⟨some "hello", CvMetadata.single "docs/a.pdf" "a.pdf" 5 true⟩
      ⟨"k"⟩ (by decide) rfl rfl).2⟩

/-! ### C4 / C10 — multi-document loading and metadata consistency -/

/-- The per-document loop of `load_all_pdfs_from_docs` keeps exactly the
documents whose extraction succeeded, in order, pairing each with its text. -/
theorem filterMap_tryLoadOne_eq (env : Env) (fs : FS) :
    ∀ l : List String,
      l.filterMap (fun p => (tryLoadOne env fs p).map (fun t => (p, t)))
        = (l.filter (fun p => (tryLoadOne env fs p).isSome)).map
            (fun p => (p, (tryLoadOne env fs p).getD "")) := by
  intro l
  induction l with
  | nil => rfl
  | cons a l ih =>
    cases h : tryLoadOne env fs a <;>
      simp [List.filterMap_cons, List.filter_cons, h, ih]

/-- C4: multi-document loading extracts the discovered documents in order;
a per-document failure only skips that document; if every document fails the
batch fails with the all-extractions-failed error; otherwise it succeeds and
the cache text is the newline-join of the texts of the successful documents, each
preceded by a header naming its file, with the recorded sources exactly the
successful documents in order. -/
theorem C4_multi_document_loading :
    ∀ (env : Env) (fs : FS),
      find_all_pdfs_in_docs fs ≠ [] →
      ((find_all_pdfs_in_docs fs).filter (fun p => (tryLoadOne env fs p).isSome) = [] →
        load_all_pdfs_from_docs env fs
          = Except.error (PyErr.exception "Failed to load any PDF files from docs directory"))
      ∧ (∀ succ : List String,
        succ = (find_all_pdfs_in_docs fs).filter (fun p => (tryLoadOne env fs p).isSome) →
        succ ≠ [] →
        load_all_pdfs_from_docs env fs = Except.ok
          { cv_content := some (String.intercalate "\n"
              (succ.map (fun p => contentHeader p ((tryLoadOne env fs p).getD "")))),
            cv_metadata := CvMetadata.multi succ (succ.map basename)
              (strLen (String.intercalate "\n"
                (succ.map (fun p => contentHeader p ((tryLoadOne env fs p).getD "")))))
              succ.length true }) := by
  intro env fs hne
  have hkey := filterMap_tryLoadOne_eq env fs (find_all_pdfs_in_docs fs)
  constructor
  · intro hsucc
    simp only [load_all_pdfs_from_docs]
    rw [if_neg (by simp [List.isEmpty_iff, hne])]
    rw [hkey, hsucc]
    rfl
  · intro succ hdef hsucc
    simp only [load_all_pdfs_from_docs]
    rw [if_neg (by simp [List.isEmpty_iff, hne])]
    rw [hkey, ← hdef]
    rw [if_neg (by simp [List.isEmpty_iff, hsucc])]
    rw [List.map_map, List.map_map, List.map_map, List.length_map]
    simp only [Function.comp_def]
    simp

/-- C4 (witness): of three discovered documents the middle one (in sorted
order) fails extraction; the load succeeds with exactly the two good
documents, each under its own header. -/
theorem C4_witness :
    load_all_pdfs_from_docs envFull fsThreeDocs = Except.ok
      { cv_content := some (String.intercalate "\n"
          ((["docs/a.pdf", "docs/c.pdf"] : List String).map
            (fun p => contentHeader p ((tryLoadOne envFull fsThreeDocs p).getD "")))),
        cv_metadata := CvMetadata.multi ["docs/a.pdf", "docs/c.pdf"]
          ((["docs/a.pdf", "docs/c.pdf"] : List String).map basename)
          (strLen (String.intercalate "\n"
            ((["docs/a.pdf", "docs/c.pdf"] : List String).map
              (fun p => contentHeader p ((tryLoadOne envFull fsThreeDocs p).getD "")))))
          2 true } :=
  (C4_multi_document_loading envFull fsThreeDocs (by decide)).2
    ["docs/a.pdf", "docs/c.pdf"] (by decide) (by decide)

/-- Inversion for a successful `load_all_pdfs_from_docs`. -/
theorem load_all_pdfs_ok_inv {env : Env} {fs : FS} {c : Cache}
    (h : load_all_pdfs_from_docs env fs = Except.ok c) :
    ∃ loaded : List (String × String),
      loaded = (find_all_pdfs_in_docs fs).filterMap
          (fun p => (tryLoadOne env fs p).map (fun t => (p, t)))
      ∧ loaded ≠ []
      ∧ c = { cv_content := some (String.intercalate "\n"
                (loaded.map (fun pt => contentHeader pt.fst pt.snd))),
              cv_metadata := CvMetadata.multi (loaded.map Prod.fst)
                (loaded.map (fun pt => basename pt.fst))
                (strLen (String.intercalate "\n"
                  (loaded.map (fun pt => contentHeader pt.fst pt.snd))))
                loaded.length true } := by
  simp only [load_all_pdfs_from_docs] at h
  by_cases h1 : (find_all_pdfs_in_docs fs).isEmpty
  · rw [if_pos h1] at h
    exact Except.noConfusion h
  · rw [if_neg h1] at h
    by_cases h2 : ((find_all_pdfs_in_docs fs).filterMap
        (fun p => (tryLoadOne env fs p).map (fun t => (p, t)))).isEmpty
    · rw [if_pos h2] at h
      exact Except.noConfusion h
    · rw [if_neg h2] at h
      obtain rfl := Except.ok.inj h
      exact ⟨_, rfl, by simpa [List.isEmpty_iff] using h2, rfl⟩

/-- C10: after every successful load the metadata agrees with the content —
`loaded = true`, `content_length` equal to the length of `cv_content`, and in
the multi-path case the file lists name exactly the successfully extracted
documents, in load order. -/
theorem C10_metadata_consistency :
    ∀ (env : Env) (fs : FS),
      (∀ (p : String) (c : Cache), load_cv env fs p = Except.ok c →
        ∃ t, c.cv_content = some t
          ∧ c.cv_metadata = CvMetadata.single p (basename p) (strLen t) true)
      ∧ (∀ c : Cache, load_all_pdfs_from_docs env fs = Except.ok c →
        ∃ (t : String) (succ : List String), c.cv_content = some t
          ∧ succ = (find_all_pdfs_in_docs fs).filter
              (fun p => (tryLoadOne env fs p).isSome)
          ∧ c.cv_metadata
              = CvMetadata.multi succ (succ.map basename) (strLen t) succ.length true) := by
  intro env fs
  constructor
  · intro p c h
    cases hl : fs.lookup p with
    | none =>
      simp only [load_cv, hl] at h
      exact Except.noConfusion h
    | some f =>
      cases he : extract_text_from_pdf env f with
      | error e =>
        simp only [load_cv, hl, he] at h
        exact Except.noConfusion h
      | ok t =>
        simp only [load_cv, hl, he] at h
        obtain rfl := Except.ok.inj h
        exact ⟨t, rfl, rfl⟩
  · intro c h
    obtain ⟨loaded, hdef, hne, rfl⟩ := load_all_pdfs_ok_inv h
    refine ⟨_, (find_all_pdfs_in_docs fs).filter (fun p => (tryLoadOne env fs p).isSome),
      rfl, rfl, ?_⟩
    rw [hdef, filterMap_tryLoadOne_eq env fs]
    rw [List.map_map, List.map_map, List.map_map, List.length_map]
    simp only [Function.comp_def]
    simp

/-- C10 (witness): both load operations at concrete inputs. -/
theorem C10_witness :
    (∃ t, (⟨some "hello", CvMetadata.single "docs/a.pdf" "a.pdf" 5 true⟩ : Cache).cv_content
        = some t
      ∧ (⟨some "hello", CvMetadata.single "docs/a.pdf" "a.pdf" 5 true⟩ : Cache).cv_metadata
        = CvMetadata.single "docs/a.pdf" (basename "docs/a.pdf") (strLen t) true)
    ∧ (∃ (t : String) (succ : List String), cacheThree.cv_content = some t
      ∧ succ = (find_all_pdfs_in_docs fsThreeDocs).filter
          (fun p => (tryLoadOne envFull fsThreeDocs p).isSome)
      ∧ cacheThree.cv_metadata
          = CvMetadata.multi succ (succ.map basename) (strLen t) succ.length true) :=
  ⟨(C10_metadata_consistency envFull fsOneDoc).1 "docs/a.pdf"
      ⟨some "hello", CvMetadata.single "docs/a.pdf" "a.pdf" 5 true⟩ (by decide),
   (C10_metadata_consistency envFull fsThreeDocs).2 cacheThree (by decide)⟩
